import Mathlib

/-!
Verification development for the mscape ingest-validation orchestrator
(`roz_scripts/mscape/mscape_ingest_validation.py` and `roz/utils.py`).

The Python program is shallowly embedded: every external effect (the
pipeline subprocess, the Onyx record store's HTTP responses, S3 uploads,
the message bus) is modelled as an *event* given as input to the embedded
function, and each embedded function returns the mutated payload together
with the messages it sent and either a normal return value or the
exception it raised (`Except String`, the string naming the Python
exception).  Python dictionaries that the code mutates are modelled as
insertion-ordered association lists with Python's dict semantics
(assignment keeps the original key position; `.get` returns an option;
truthiness of a list is non-emptiness).
-/

/-- Python dict lookup `d.get(k)`: the value bound to `k`, if present. -/
def dictGet {α : Type} (d : List (String × α)) (k : String) : Option α :=
  match d with
  | [] => none
  | (k', v) :: rest => if k' = k then some v else dictGet rest k

/-- Python dict assignment `d[k] = v`: replaces the value in place if the
key is present (keeping its position, as CPython does), otherwise appends
the new binding at the end. -/
def dictSet {α : Type} (d : List (String × α)) (k : String) (v : α) : List (String × α) :=
  match d with
  | [] => [(k, v)]
  | (k', v') :: rest => if k' = k then (k, v) :: rest else (k', v') :: dictSet rest k v

/-- Python truthiness of `d.get(k)` when the values are lists: `None` and
the empty list are falsy. -/
def pyTruthy (o : Option (List String)) : Bool :=
  match o with
  | none => false
  | some l => !l.isEmpty

/-- The merge step the code performs for one field of a `messages`
object: `if payload["onyx_errors"].get(field): payload["onyx_errors"][field].extend(messages)
else: payload["onyx_errors"][field] = messages`. -/
def mergeField (d : List (String × List String)) (k : String) (msgs : List String) :
    List (String × List String) :=
  if pyTruthy (dictGet d k) then dictSet d k ((dictGet d k).getD [] ++ msgs)
  else dictSet d k msgs

/-- The `for field, messages in response.json()["messages"].items()` merge loop. -/
def mergeMessages (d : List (String × List String)) (msgs : List (String × List String)) :
    List (String × List String) :=
  msgs.foldl (fun acc fm => mergeField acc fm.1 fm.2) d

/-- The mutable payload record threaded through every stage, with the
fields the orchestrator reads or writes. -/
structure Payload where
  uuid : String
  artifact : String
  project : String
  site : String
  site_code : String
  platform : String
  files : List (String × String)
  cid : Option String
  created : Bool
  ingested : Bool
  test_flag : Bool
  test_ingest_result : Bool
  onyx_test_create_status : Bool
  onyx_status_code : Option Nat
  onyx_create_status : Bool
  onyx_errors : List (String × List String)
  ingest_errors : List String
deriving Repr, DecidableEq

/-- A payload with every field empty/false, used to build concrete inputs. -/
def emptyPayload : Payload :=
  { uuid := "", artifact := "", project := "", site := "", site_code := ""
    platform := "", files := [], cid := none, created := false, ingested := false
    test_flag := false, test_ingest_result := false, onyx_test_create_status := false
    onyx_status_code := none, onyx_create_status := false, onyx_errors := []
    ingest_errors := [] }

/-- Outcome of the Onyx `csv_create` call as seen by `onyx_submission`:
either a response (status code, optional `messages` object, and the `cid`
carried in the body's `data` for 201 responses) or an exception raised by
the client/transport before a response was obtained. -/
inductive CreateEvent where
  | resp (status : Nat) (messages : List (String × List String)) (cid : String)
  | raised (e : String)
deriving Repr, DecidableEq

/-- Either the value a Python function returned (`ok`) or the exception
that escaped it (`exn`, carrying the exception's description). -/
inductive PyResult (α : Type) where
  | ok (v : α)
  | exn (e : String)
deriving Repr, DecidableEq

/-- Result of one embedded stage call: the payload as mutated in place,
the number of messages the stage itself published to the results
exchange, and either the value the Python function returned or the
exception that escaped it. -/
structure SubmissionOut where
  payload : Payload
  sent : Nat
  result : PyResult (Bool × Payload)
deriving Repr, DecidableEq

/-- The assignment `payload["onyx_errors"]["onyx_client_errors"] = msg`
that every client-error branch performs: it replaces (does not extend)
the reserved client-error bucket. -/
def assignClientErrors (p : Payload) (msg : List String) : Payload :=
  { p with onyx_errors := dictSet p.onyx_errors "onyx_client_errors" msg }

/-- The common failure shape of the non-422 error branches of
`onyx_submission`: assign (not append) the client-error bucket, send one
message on the results exchange because `ingest_fail` is true, and return
`(True, payload)`. -/
def onyxFailOut (p : Payload) (msg : List String) : SubmissionOut :=
  let p2 : Payload := assignClientErrors p msg
  { payload := p2, sent := 1, result := .ok (true, p2) }

/-- Embedding of `onyx_submission` (lines 131-265).  The local
`ingest_fail` is only ever assigned in the failure branches; on the 201
branch the trailing `if ingest_fail:` therefore raises
`UnboundLocalError`, which the generic `except Exception` handler catches
(recording a spurious client error), after which the `return
(ingest_fail, payload)` outside the `try` raises `UnboundLocalError`
again, uncaught.  The same final `return` also raises when the create
call itself raised. -/
def onyx_submission (ev : CreateEvent) (p : Payload) : SubmissionOut :=
  match ev with
  | .raised e =>
      let p1 : Payload := assignClientErrors p ["Unhandled client error " ++ e]
      { payload := p1, sent := 0, result := .exn "UnboundLocalError: ingest_fail" }
  | .resp status msgs cid =>
      let p1 : Payload := { p with onyx_status_code := some status }
      if status = 500 then
        onyxFailOut p1 ["Onyx internal server error"]
      else if status = 422 then
        let p2 : Payload :=
          if msgs.isEmpty then p1
          else { p1 with onyx_errors := mergeMessages p1.onyx_errors msgs }
        { payload := p2, sent := 1, result := .ok (true, p2) }
      else if status = 404 then
        onyxFailOut p1 ["Project " ++ p.project ++ " does not exist"]
      else if status = 403 then
        onyxFailOut p1 ["Bad fields in onyx create request"]
      else if status = 401 then
        onyxFailOut p1 ["Incorrect Onyx credentials"]
      else if status = 400 then
        onyxFailOut p1 ["Malformed onyx create request"]
      else if status = 200 then
        onyxFailOut p1 ["200 response status on onyx create (should be 201)"]
      else if status = 201 then
        let p2 : Payload := { p1 with onyx_create_status := true, created := true, cid := some cid }
        let p3 : Payload := assignClientErrors p2
          ["Unhandled client error local variable ingest_fail referenced before assignment"]
        { payload := p3, sent := 0, result := .exn "UnboundLocalError: ingest_fail" }
      else
        onyxFailOut p1 ["Unhandled response status code " ++ toString status ++ " from Onyx create"]

example :
    (onyx_submission (.resp 201 [] "C-123") emptyPayload).result
      = .exn "UnboundLocalError: ingest_fail" := rfl

example :
    (onyx_submission (.resp 201 [] "C-123") emptyPayload).payload.cid = some "C-123" := rfl

example :
    dictGet (onyx_submission (.resp 422 [("field_x", ["bad value"])] "")
      emptyPayload).payload.onyx_errors "field_x" = some ["bad value"] := rfl

/-- Outcome of the nextflow subprocess: either it completed (with a
return code and captured output) or `subprocess.run` raised
`TimeoutExpired`. -/
inductive ProcEvent where
  | completed (rc : Int) (stdout stderr : String)
  | timedOut
deriving Repr, DecidableEq

/-- Embedding of `pipeline.execute` (lines 51-86).  `proc` is assigned
only inside the `try`; when `subprocess.run` raises `TimeoutExpired` the
handler merely sets `timeout = True`, so the `return (proc.returncode,
timeout, proc.stdout, proc.stderr)` raises `UnboundLocalError` instead of
returning a tuple with the timeout flag. -/
def pipeline_execute (ev : ProcEvent) : PyResult (Int × Bool × String × String) :=
  match ev with
  | .completed rc out err => .ok (rc, false, out, err)
  | .timedOut => .exn "UnboundLocalError: proc"

/-- `payload["files"][ext]["uri"]` (claims never exercise the missing-key path). -/
def fileUri (p : Payload) (ext : String) : String :=
  (dictGet p.files ext).getD ""

/-- The platform-independent part of the parameter dict built by
`execute_validation_pipeline` (lines 104-112). -/
def baseParams (result_dir : String) (p : Payload) : List (String × String) :=
  [("out_dir", result_dir), ("unique_id", p.uuid), ("climb", ""),
   ("max_human_reads_before_rejection", "10000"), ("k2_host", "10.1.185.58"),
   ("k2_port", "8080"), ("db", "/shared/public/db/kraken2/k2_pluspf/")]

/-- What a call to `execute_validation_pipeline` does: the parameters it
passes to `ingest_pipe.execute`, whether that invocation happens, whether
the unrecognised-platform error was logged, and the payload afterwards. -/
structure ExecCallOut where
  params : List (String × String)
  invoked : Bool
  loggedError : Bool
  payload : Payload
deriving Repr, DecidableEq

/-- Embedding of `execute_validation_pipeline` (lines 89-128).  The
unrecognised-platform branch only calls `log.error`: it does not modify
the payload, does not return early, and the function still ends with
`return ingest_pipe.execute(params=parameters)`. -/
def execute_validation_pipeline (result_dir : String) (p : Payload) : ExecCallOut :=
  let parameters := baseParams result_dir p
  if p.platform = "ont" then
    { params := parameters ++ [("fastq", fileUri p ".fastq.gz")],
      invoked := true, loggedError := false, payload := p }
  else if p.platform = "illumina" then
    { params := parameters ++
        [("fastq1", fileUri p ".1.fastq.gz"), ("fastq2", fileUri p ".2.fastq.gz"), ("paired", "")],
      invoked := true, loggedError := false, payload := p }
  else
    { params := parameters, invoked := true, loggedError := true, payload := p }

/-- One row of the nextflow execution trace table, as read by
`csv.DictReader`: the qualified process name and the `exit` and `status`
columns (both strings in the tab-separated file). -/
structure TraceRow where
  name : String
  exit : String
  status : String
deriving Repr, DecidableEq

/-- The characters after the last `:` (the whole list when there is
none): the accumulator restarts at every separator, so what remains at
the end is the final segment. -/
def lastSegmentAux : List Char → List Char → List Char
  | [], acc => acc.reverse
  | c :: cs, acc => if c = ':' then lastSegmentAux cs [] else lastSegmentAux cs (c :: acc)

/-- `process["name"].split(":")[-1]`: the short process name. -/
def shortName (s : String) : String :=
  String.mk (lastSegmentAux s.data [])

/-- The `trace_dict` built from the reader: keyed by short name, last
write wins while the first occurrence keeps its position (Python dict
update semantics). -/
def buildTraceDict (rows : List TraceRow) : List (String × TraceRow) :=
  rows.foldl (fun d row => dictSet d (shortName row.name) row) []

/-- The special-cased failure reason for excess host/human reads. -/
def humanReadsMsg : String :=
  "Human reads detected above rejection threshold, please ensure pre-upload dehumanisation has been performed properly"

/-- The generic per-process pipeline failure reason. -/
def genericFailMsg (process : String) (t : TraceRow) : String :=
  "MScape validation pipeline (Scylla) failed in process " ++ process ++
    " with exit code " ++ t.exit ++ " and status " ++ t.status

/-- One iteration of the classification loop over `trace_dict.items()`
(lines 612-628).  The condition is transcribed with Python's operator
precedence: `A or B and C` parses as `A or (B and C)`, so
`extract_paired_reads` is special-cased for *any* non-zero exit, while
`extract_reads` is special-cased only for exit `"2"`. -/
def traceStep (acc : Bool × List String) (item : String × TraceRow) : Bool × List String :=
  if item.2.exit ≠ "0" then
    if item.1 = "extract_paired_reads" ∨ (item.1 = "extract_reads" ∧ item.2.exit = "2") then
      (true, acc.2 ++ [humanReadsMsg])
    else
      (true, acc.2 ++ [genericFailMsg item.1 item.2])
  else acc

/-- Result of the trace-interpreter call, shaped like `SubmissionOut`. -/
structure InterpOut where
  payload : Payload
  sent : Nat
  result : PyResult (Bool × Payload)
deriving Repr, DecidableEq

/-- Embedding of `ret_0_parser` (lines 564-629).  The input is `some
rows` when the trace file opened and parsed, `none` when opening it
raised.  In the latter case the handler appends the failure reason and
sends a results message, but `trace_dict` was never assigned, so the
`for process, trace in trace_dict.items()` line then raises
`UnboundLocalError` past the function's boundary. -/
def ret_0_interp (trace : Option (List TraceRow)) (p : Payload) (ingest_fail : Bool) :
    InterpOut :=
  match trace with
  | none =>
      let p1 : Payload :=
        { p with ingest_errors := p.ingest_errors ++ ["couldn't open nxf ingest pipeline trace"] }
      { payload := p1, sent := 1, result := .exn "UnboundLocalError: trace_dict" }
  | some rows =>
      let res := (buildTraceDict rows).foldl traceStep (ingest_fail, [])
      let p1 : Payload := { p with ingest_errors := p.ingest_errors ++ res.2 }
      { payload := p1, sent := 0, result := .ok (res.1, p1) }

/-- Outcome of one `s3_client.upload_file` call. -/
inductive UploadEvent where
  | ok
  | clientError (e : String)
deriving Repr, DecidableEq

/-- Outcome of one `client.update` call against Onyx: a response (status
code plus optional `messages` object) or a raised exception. -/
inductive UpdateEvent where
  | resp (status : Nat) (messages : List (String × List String))
  | raised (e : String)
deriving Repr, DecidableEq

/-- An attempted S3 upload: target bucket and object key. -/
structure S3Upload where
  bucket : String
  key : String
deriving Repr, DecidableEq

/-- The storage location of an uploaded object. -/
def s3uri (b k : String) : String :=
  "s3://" ++ b ++ "/" ++ k

/-- Result of a publish operation: the `(failed, payload)` it returns,
the uploads it attempted, and the fields it passed to `client.update`. -/
structure PublishOut where
  failed : Bool
  payload : Payload
  uploads : List S3Upload
  updateFields : List (String × String)
deriving Repr, DecidableEq

/-- The shared update-response handling of `push_report_file` and
`add_taxon_records`: 200 is success; any other status merges the
`messages` object (if truthy) and fails; a raised exception assigns the
client-error bucket and fails. -/
def onyxUpdateMerge (p : Payload) (ev : UpdateEvent) : Bool × Payload :=
  match ev with
  | .resp status msgs =>
      if status = 200 then (false, p)
      else
        let p2 : Payload :=
          if msgs.isEmpty then p
          else { p with onyx_errors := mergeMessages p.onyx_errors msgs }
        (true, p2)
  | .raised e => (true, assignClientErrors p ["Unhandled client error " ++ e])

/-- Embedding of `push_report_file` (lines 395-464): uploads the report
under the key `{cid}_scylla_report.html`, then links
`validation_report = s3://mscapetest-published-reports/{cid}_validation_report.html`. -/
def push_report_file (upEv : UploadEvent) (updEv : UpdateEvent) (p : Payload) : PublishOut :=
  let c := p.cid.getD ""
  let upload : S3Upload :=
    { bucket := "mscapetest-published-reports", key := c ++ "_scylla_report.html" }
  let r1 : Bool × Payload :=
    match upEv with
    | .ok => (false, p)
    | .clientError _ =>
        (true, { p with ingest_errors :=
          p.ingest_errors ++ ["Failed to upload scylla report to storage bucket"] })
  let r2 := onyxUpdateMerge r1.2 updEv
  { failed := r1.1 || r2.1, payload := r2.2, uploads := [upload],
    updateFields :=
      [("validation_report",
        "s3://mscapetest-published-reports/" ++ c ++ "_validation_report.html")] }

/-- Outcome of the Onyx update inside `add_reads_record`, whose `try`
catches only `requests.HTTPError`. -/
inductive ReadsUpdateEvent where
  | resp (status : Nat)
  | httpError (e : String)
deriving Repr, DecidableEq

/-- The value `add_reads_record` actually returns: either the documented
`(failed, payload)` tuple or — on the successful-update path — the raw
response object of the Onyx update call. -/
inductive ReadsRet where
  | tuple (failed : Bool) (payload : Payload)
  | response (status : Nat)
deriving Repr, DecidableEq

/-- One raw-reads upload attempt: a `ClientError` appends the error
string and sets `raw_read_fail`. -/
def readsUploadStep (p : Payload) (ev : UploadEvent) : Bool × Payload :=
  match ev with
  | .ok => (false, p)
  | .clientError _ =>
      (true, { p with ingest_errors :=
        p.ingest_errors ++ ["Failed to upload reads to storage bucket"] })

/-- Embedding of `add_reads_record` (lines 467-561).  On the illumina
path two uploads are attempted (a failure of the first does not stop the
second: the `except` ends in `continue`); on every other platform one
upload is attempted.  If no upload failed, the function executes `return
response` — returning the raw update response for *any* status — and only
reaches `return (raw_read_fail, payload)` when an upload failed or the
update raised `requests.HTTPError`. -/
def add_reads_record (up1 up2 : UploadEvent) (upd : ReadsUpdateEvent) (p : Payload) :
    ReadsRet :=
  if p.platform = "illumina" then
    let r1 := readsUploadStep p up1
    let r2 := readsUploadStep r1.2 up2
    let fail := r1.1 || r2.1
    if fail then .tuple fail r2.2
    else
      match upd with
      | .resp s => .response s
      | .httpError _ => .tuple true r2.2
  else
    let r1 := readsUploadStep p up1
    if r1.1 then .tuple true r1.2
    else
      match upd with
      | .resp s => .response s
      | .httpError _ => .tuple true r1.2

/-- The external events one iteration of the consumption loop can
observe before it crashes: the subprocess outcome and the trace file. -/
structure RunEnv where
  proc : ProcEvent
  trace : Option (List TraceRow)
deriving Repr, DecidableEq

/-- What one iteration of the loop did: the payload when the iteration
ended, how many messages were published to the per-site results exchange
(counting those sent inside callees), how many new-artifact notifications
were published, and whether the iteration completed or an exception
escaped into (and killed) the loop. -/
structure PassOut where
  payload : Payload
  resultsSent : Nat
  newArtifactSent : Nat
  result : PyResult Unit
deriving Repr, DecidableEq

/-- Embedding of one iteration of the `while True` loop in `run` (lines
687-872).  Transcribed control flow: project filter (no send), pre-check
forward, pipeline execution (whose timeout path raises inside
`pipeline.execute`, so the `if not timeout` branch in `run` handles a
flag that can never be true), non-zero exit code, trace interpretation
(whose unreadable-trace path raises after sending), test-mode
short-circuit, and then the record-creation call — which is written
`onyx_submission(log=..., payload=..., varys_client=..., ingest_fail=ingest_fail)`
although `onyx_submission` accepts no `ingest_fail` parameter, so the
call raises `TypeError` before the function body runs, and everything
from record creation to finalisation is unreachable. -/
def runPass (env : RunEnv) (p : Payload) : PassOut :=
  if p.project ≠ "mscapetest" then
    { payload := p, resultsSent := 0, newArtifactSent := 0, result := .ok () }
  else if !p.onyx_test_create_status then
    { payload := p, resultsSent := 1, newArtifactSent := 0, result := .ok () }
  else
    match pipeline_execute env.proc with
    | .exn e => { payload := p, resultsSent := 0, newArtifactSent := 0, result := .exn e }
    | .ok (rc, timeout, _, _) =>
      if timeout then
        let p1 : Payload :=
          { p with ingest_errors := p.ingest_errors ++ ["Validation pipeline timeout"] }
        { payload := p1, resultsSent := 1, newArtifactSent := 0, result := .ok () }
      else if rc ≠ 0 then
        let p1 : Payload :=
          { p with ingest_errors :=
            p.ingest_errors ++ ["Scylla exited with non-0 exit code: " ++ toString rc] }
        { payload := p1, resultsSent := 1, newArtifactSent := 0, result := .ok () }
      else
        let io2 := ret_0_interp env.trace p false
        match io2.result with
        | .exn e =>
            { payload := io2.payload, resultsSent := io2.sent, newArtifactSent := 0,
              result := .exn e }
        | .ok r =>
            let p2 := r.2
            if p2.test_flag then
              let p3 : Payload := { p2 with test_ingest_result := true }
              { payload := p3, resultsSent := io2.sent + 1, newArtifactSent := 0,
                result := .ok () }
            else
              { payload := p2, resultsSent := io2.sent, newArtifactSent := 0,
                result := .exn "TypeError: onyx_submission got an unexpected keyword argument ingest_fail" }

theorem dictGet_dictSet_self {α : Type} (d : List (String × α)) (k : String) (v : α) :
    dictGet (dictSet d k v) k = some v := by
  induction d with
  | nil => simp [dictSet, dictGet]
  | cons hd tl ih =>
      obtain ⟨k', v'⟩ := hd
      by_cases h : k' = k
      · simp [dictSet, dictGet, h]
      · simp [dictSet, dictGet, h, ih]

theorem dictGet_dictSet_ne {α : Type} (d : List (String × α)) (k j : String) (v : α)
    (h : j ≠ k) : dictGet (dictSet d k v) j = dictGet d j := by
  have h' : ¬ k = j := fun hkj => h hkj.symm
  induction d with
  | nil => simp [dictSet, dictGet, h']
  | cons hd tl ih =>
      obtain ⟨k', v'⟩ := hd
      by_cases hk : k' = k
      · subst hk
        simp [dictSet, dictGet, h']
      · by_cases hj : k' = j
        · simp [dictSet, dictGet, hk, hj, h]
        · simp [dictSet, dictGet, hk, hj, ih]

theorem dictGet_mergeField_self (d : List (String × List String)) (k : String)
    (m : List String) :
    dictGet (mergeField d k m) k = some ((dictGet d k).getD [] ++ m) := by
  unfold mergeField
  cases h : dictGet d k with
  | none => simp [pyTruthy, h, dictGet_dictSet_self]
  | some l =>
      cases l with
      | nil => simp [pyTruthy, h, dictGet_dictSet_self]
      | cons a as => simp [pyTruthy, h, dictGet_dictSet_self]

theorem dictGet_mergeField_ne (d : List (String × List String)) (k j : String)
    (m : List String) (h : j ≠ k) :
    dictGet (mergeField d k m) j = dictGet d j := by
  unfold mergeField
  by_cases ht : pyTruthy (dictGet d k) <;> simp [ht, dictGet_dictSet_ne _ _ _ _ h]

theorem pyresult_exn_ne_ok {α : Type} (e : String) (v : α) :
    (PyResult.exn e : PyResult α) ≠ .ok v := by
  intro h
  exact PyResult.noConfusion h

/-- A payload as it arrives at the loop body having passed the project
filter and the pre-check, outside test mode. -/
def readyPayload : Payload :=
  { emptyPayload with project := "mscapetest", onyx_test_create_status := true }

/-- Claim C1: the loop is claimed to emit exactly one outcome message to
the results exchange per inbound message passing the project filter, at
the first terminal condition reached.  Evaluated at an inbound message
that passes the filter and the pre-check, whose pipeline completes with
exit code 0 and a readable clean trace, outside test mode: the
record-creation call raises `TypeError` (it passes an `ingest_fail`
keyword argument that `onyx_submission` does not accept), so zero
outcome messages are emitted and the exception escapes the loop. -/
theorem claim_C1_pass_emits_zero_then_crashes :
    (runPass { proc := .completed 0 "" "", trace := some [] } readyPayload).resultsSent = 0 ∧
    (runPass { proc := .completed 0 "" "", trace := some [] } readyPayload).result =
      .exn "TypeError: onyx_submission got an unexpected keyword argument ingest_fail" ∧
    (∀ u, (runPass { proc := .completed 0 "" "", trace := some [] } readyPayload).result
      ≠ .ok u) := by
  refine ⟨rfl, rfl, ?_⟩
  exact fun u => pyresult_exn_ne_ok _ u

/-- Claim C2: exceeding the wall-clock budget is claimed to make
`pipeline.execute` return `(returncode, True, stdout, stderr)` without
raising, after which `run` appends "Validation pipeline timeout" and
emits once.  In the code, `proc` is unbound when `subprocess.run` raises
`TimeoutExpired`, so the `return` statement raises `UnboundLocalError`;
consequently the timeout branch of `run` is unreachable and a timed-out
pass emits nothing. -/
theorem claim_C2_timeout_raises_instead_of_returning :
    pipeline_execute .timedOut = .exn "UnboundLocalError: proc" ∧
    (∀ v, pipeline_execute .timedOut ≠ .ok v) ∧
    (runPass { proc := .timedOut, trace := some [] } readyPayload).resultsSent = 0 ∧
    (runPass { proc := .timedOut, trace := some [] } readyPayload).result =
      .exn "UnboundLocalError: proc" := by
  refine ⟨rfl, ?_, rfl, rfl⟩
  exact fun v => pyresult_exn_ne_ok _ v

/-- Claim C3: a 201 create response is claimed to make `onyx_submission`
store the cid and return `(False, payload)` without raising.  The code
does store `cid`, `created` and `onyx_create_status`, but `ingest_fail`
was never assigned on this branch, so the trailing `if ingest_fail:`
raises `UnboundLocalError`; the generic handler catches it and records a
spurious client error, and the final `return` raises the same
`UnboundLocalError` uncaught. -/
theorem claim_C3_201_stores_cid_but_raises :
    (onyx_submission (.resp 201 [] "C-123") emptyPayload).payload.cid = some "C-123" ∧
    (onyx_submission (.resp 201 [] "C-123") emptyPayload).payload.created = true ∧
    (onyx_submission (.resp 201 [] "C-123") emptyPayload).payload.onyx_create_status = true ∧
    (onyx_submission (.resp 201 [] "C-123") emptyPayload).result =
      .exn "UnboundLocalError: ingest_fail" ∧
    (∀ v, (onyx_submission (.resp 201 [] "C-123") emptyPayload).result ≠ .ok v) ∧
    dictGet (onyx_submission (.resp 201 [] "C-123") emptyPayload).payload.onyx_errors
        "onyx_client_errors" =
      some ["Unhandled client error local variable ingest_fail referenced before assignment"] := by
  refine ⟨rfl, rfl, rfl, rfl, ?_, rfl⟩
  exact fun v => pyresult_exn_ne_ok _ v

/-- Claim C4: when the execution trace cannot be opened, `ret_0_parser`
is claimed to append the failure reason and return `(True, payload)`
rather than propagating an exception.  The code appends the reason and
sends a message, but `trace_dict` was only assigned inside the failed
`try`, so the following `for` loop raises `UnboundLocalError` past the
function's boundary. -/
theorem claim_C4_unreadable_trace_raises :
    (ret_0_interp none emptyPayload false).payload.ingest_errors =
      ["couldn't open nxf ingest pipeline trace"] ∧
    (ret_0_interp none emptyPayload false).sent = 1 ∧
    (ret_0_interp none emptyPayload false).result = .exn "UnboundLocalError: trace_dict" ∧
    (∀ v, (ret_0_interp none emptyPayload false).result ≠ .ok v) := by
  refine ⟨rfl, rfl, rfl, ?_⟩
  exact fun v => pyresult_exn_ne_ok _ v

/-- Claim C5: each publish operation is claimed to return a
`(failed, payload)` tuple on every execution path.  On the path where
all uploads succeed and the record-store update answers,
`add_reads_record` executes `return response`, returning the raw update
response object instead of any tuple. -/
theorem claim_C5_add_reads_returns_raw_response :
    add_reads_record .ok .ok (.resp 200)
        { emptyPayload with platform := "illumina", cid := some "C-123" } =
      .response 200 ∧
    (∀ f q, add_reads_record .ok .ok (.resp 200)
        { emptyPayload with platform := "illumina", cid := some "C-123" } ≠
      .tuple f q) := by
  refine ⟨rfl, ?_⟩
  intro f q h
  exact ReadsRet.noConfusion h

/-- Claim C6: the excess-host-reads special case is claimed to apply
only when a read-extraction process exits with status exactly "2".
Because `A or B and C` parses as `A or (B and C)`, a row for
`extract_paired_reads` with exit "1" is nevertheless special-cased: the
excess-host-reads reason is recorded and the generic per-process reason
is not. -/
theorem claim_C6_paired_extraction_exit_1_special_cased :
    (ret_0_interp (some [{ name := "a:extract_paired_reads", exit := "1", status := "FAILED" }])
        emptyPayload false).payload.ingest_errors = [humanReadsMsg] ∧
    (ret_0_interp (some [{ name := "a:extract_paired_reads", exit := "1", status := "FAILED" }])
        emptyPayload false).result =
      .ok (true, (ret_0_interp
        (some [{ name := "a:extract_paired_reads", exit := "1", status := "FAILED" }])
        emptyPayload false).payload) ∧
    humanReadsMsg ≠
      genericFailMsg "extract_paired_reads"
        { name := "a:extract_paired_reads", exit := "1", status := "FAILED" } := by
  refine ⟨rfl, rfl, ?_⟩
  decide

/-- Claim C7, counterexample: for a payload whose platform is
"nanopore" (neither "ont" nor "illumina"), the claim says an error is
recorded against the payload and no pipeline invocation is attempted; in
the code the pipeline is invoked anyway and the payload is returned
unmodified. -/
theorem claim_C7_counterexample :
    (execute_validation_pipeline "/results"
        { emptyPayload with platform := "nanopore" }).invoked = true ∧
    (execute_validation_pipeline "/results"
        { emptyPayload with platform := "nanopore" }).payload =
      { emptyPayload with platform := "nanopore" } := by
  exact ⟨rfl, rfl⟩

/-- Claim C7, amended: for every payload whose platform is neither
"ont" nor "illumina", `execute_validation_pipeline` logs an error but
does not modify the payload, and it still invokes the pipeline, passing
only the base parameters — in particular no `fastq`, `fastq1` or
`fastq2` parameter. -/
theorem claim_C7_unrecognised_platform_still_invokes
    (result_dir : String) (p : Payload)
    (h1 : p.platform ≠ "ont") (h2 : p.platform ≠ "illumina") :
    (execute_validation_pipeline result_dir p).invoked = true ∧
    (execute_validation_pipeline result_dir p).loggedError = true ∧
    (execute_validation_pipeline result_dir p).payload = p ∧
    (execute_validation_pipeline result_dir p).params = baseParams result_dir p ∧
    ∀ kv ∈ (execute_validation_pipeline result_dir p).params,
      kv.1 ≠ "fastq" ∧ kv.1 ≠ "fastq1" ∧ kv.1 ≠ "fastq2" := by
  have hout : execute_validation_pipeline result_dir p =
      { params := baseParams result_dir p, invoked := true, loggedError := true,
        payload := p } := by
    simp [execute_validation_pipeline, h1, h2]
  refine ⟨by rw [hout], by rw [hout], by rw [hout], by rw [hout], ?_⟩
  rw [hout]
  intro kv hkv
  simp only [baseParams, List.mem_cons, List.not_mem_nil, or_false] at hkv
  rcases hkv with h | h | h | h | h | h | h <;> subst h <;>
    exact ⟨by simp, by simp, by simp⟩

/-- Claim C7, witness: the amended theorem applied at the "nanopore"
payload. -/
theorem claim_C7_witness :
    (execute_validation_pipeline "/results"
        { emptyPayload with platform := "nanopore", uuid := "u1" }).invoked = true ∧
    (execute_validation_pipeline "/results"
        { emptyPayload with platform := "nanopore", uuid := "u1" }).loggedError = true :=
  have h := claim_C7_unrecognised_platform_still_invokes "/results"
    { emptyPayload with platform := "nanopore", uuid := "u1" }
    (by decide) (by decide)
  ⟨h.1, h.2.1⟩

/-- Claim C8: a 422 create response carrying a `messages` object makes
`onyx_submission` mark the stage failed (it sends one failure message
and returns `(True, payload)`), and each field's message sequence is
merged into the field-error accumulator, extending what was already
recorded for that field — the resulting entry is the old entry (empty
when the field was absent) followed by the new messages — while every
other field is untouched. -/
theorem claim_C8_422_merges_field_errors (p : Payload) (f : String) (m : List String) :
    (onyx_submission (.resp 422 [(f, m)] "") p).result =
      .ok (true, (onyx_submission (.resp 422 [(f, m)] "") p).payload) ∧
    (onyx_submission (.resp 422 [(f, m)] "") p).sent = 1 ∧
    dictGet (onyx_submission (.resp 422 [(f, m)] "") p).payload.onyx_errors f =
      some ((dictGet p.onyx_errors f).getD [] ++ m) ∧
    ∀ g, g ≠ f →
      dictGet (onyx_submission (.resp 422 [(f, m)] "") p).payload.onyx_errors g =
        dictGet p.onyx_errors g := by
  refine ⟨rfl, rfl, ?_, ?_⟩
  · show dictGet (mergeField p.onyx_errors f m) f = _
    exact dictGet_mergeField_self p.onyx_errors f m
  · intro g hg
    show dictGet (mergeField p.onyx_errors f m) g = _
    exact dictGet_mergeField_ne p.onyx_errors f g m hg

/-- Claim C8, witness: the merge evaluated at the spec's concrete
example, `messages = ("field_x" maps to ["bad value"])`, on a payload
with an empty accumulator. -/
theorem claim_C8_witness :
    dictGet (onyx_submission (.resp 422 [("field_x", ["bad value"])] "")
        emptyPayload).payload.onyx_errors "field_x" = some ["bad value"] ∧
    dictGet (onyx_submission (.resp 422 [("field_x", ["bad value"])] "")
        emptyPayload).payload.onyx_errors "onyx_client_errors" = none := by
  have h := claim_C8_422_merges_field_errors emptyPayload "field_x" ["bad value"]
  refine ⟨?_, ?_⟩
  · have h3 := h.2.2.1
    simp only [emptyPayload, dictGet, Option.getD_none, List.nil_append] at h3
    exact h3
  · have h4 := h.2.2.2 "onyx_client_errors" (by decide)
    simp only [emptyPayload, dictGet] at h4
    exact h4

/-- `onyxUpdateMerge` never touches `ingest_errors`: every branch of the
update-response handling writes only into `onyx_errors`. -/
theorem onyxUpdateMerge_ingest_errors (p : Payload) (ev : UpdateEvent) :
    (onyxUpdateMerge p ev).2.ingest_errors = p.ingest_errors := by
  cases ev with
  | resp s msgs =>
      by_cases h : s = 200
      · simp [onyxUpdateMerge, h]
      · by_cases h2 : msgs.isEmpty <;> simp [onyxUpdateMerge, h, h2]
  | raised e => simp [onyxUpdateMerge, assignClientErrors]

/-- Claim C9, counterexample: a client error recorded by an earlier
stage (here the record-creation stage after a transport exception) is
removed from the reserved `onyx_client_errors` bucket when a later stage
(the report publisher, after its own update exception) assigns the
bucket: the accumulator is not append-only. -/
theorem claim_C9_counterexample :
    dictGet (onyx_submission (.raised "connection reset by peer")
        emptyPayload).payload.onyx_errors "onyx_client_errors" =
      some ["Unhandled client error connection reset by peer"] ∧
    dictGet (push_report_file .ok (.raised "request exception")
        (onyx_submission (.raised "connection reset by peer") emptyPayload).payload
      ).payload.onyx_errors "onyx_client_errors" =
      some ["Unhandled client error request exception"] ∧
    "Unhandled client error connection reset by peer" ∉
      (dictGet (push_report_file .ok (.raised "request exception")
          (onyx_submission (.raised "connection reset by peer") emptyPayload).payload
        ).payload.onyx_errors "onyx_client_errors").getD [] := by
  refine ⟨rfl, rfl, ?_⟩
  show "Unhandled client error connection reset by peer" ∉
    (["Unhandled client error request exception"] : List String)
  simp

/-- Claim C9, amended: `ingest_errors` is append-only in every stage
(each stage's result extends the incoming list), and the 422/update
`messages` merges extend per-field lists, but the reserved
`onyx_client_errors` bucket is assigned wholesale whenever a stage
records a client error: after an update exception in the report
publisher the bucket holds exactly the new entry, whatever it held
before. -/
theorem claim_C9_append_only_except_client_bucket :
    (∀ upEv updEv p, ∃ t, (push_report_file upEv updEv p).payload.ingest_errors =
        p.ingest_errors ++ t) ∧
    (∀ ev p, (onyx_submission ev p).payload.ingest_errors = p.ingest_errors) ∧
    (∀ tr p b, ∃ t, (ret_0_interp tr p b).payload.ingest_errors = p.ingest_errors ++ t) ∧
    (∀ upEv e p, dictGet (push_report_file upEv (.raised e) p).payload.onyx_errors
        "onyx_client_errors" = some ["Unhandled client error " ++ e]) := by
  refine ⟨?_, ?_, ?_, ?_⟩
  · intro upEv updEv p
    cases upEv with
    | ok =>
        refine ⟨[], ?_⟩
        show (onyxUpdateMerge p updEv).2.ingest_errors = p.ingest_errors ++ []
        rw [List.append_nil]
        exact onyxUpdateMerge_ingest_errors p updEv
    | clientError e =>
        refine ⟨["Failed to upload scylla report to storage bucket"], ?_⟩
        show (onyxUpdateMerge
          { p with ingest_errors :=
              p.ingest_errors ++ ["Failed to upload scylla report to storage bucket"] }
          updEv).2.ingest_errors = _
        rw [onyxUpdateMerge_ingest_errors]
  · intro ev p
    cases ev with
    | raised e => rfl
    | resp status msgs cid =>
        simp only [onyx_submission]
        split_ifs <;> simp [onyxFailOut, assignClientErrors]
  · intro tr p b
    cases tr with
    | none => exact ⟨["couldn't open nxf ingest pipeline trace"], rfl⟩
    | some rows => exact ⟨_, rfl⟩
  · intro upEv e p
    cases upEv with
    | ok =>
        exact dictGet_dictSet_self p.onyx_errors "onyx_client_errors" _
    | clientError e2 =>
        exact dictGet_dictSet_self
          { p with ingest_errors :=
              p.ingest_errors ++ ["Failed to upload scylla report to storage bucket"]
            }.onyx_errors "onyx_client_errors" _

/-- Claim C10: `push_report_file` uploads the report object to the
reports bucket under the key `cid ++ "_scylla_report.html"`, links
`validation_report = "s3://mscapetest-published-reports/" ++ cid ++
"_validation_report.html"` in the record store, and the linked URI never
equals the storage location of the object actually uploaded (their
suffixes, hence their lengths, differ for every cid). -/
theorem claim_C10_linked_report_uri_never_matches_upload (upEv : UploadEvent)
    (updEv : UpdateEvent) (p : Payload) :
    (push_report_file upEv updEv p).uploads =
      [{ bucket := "mscapetest-published-reports",
         key := p.cid.getD "" ++ "_scylla_report.html" }] ∧
    (push_report_file upEv updEv p).updateFields =
      [("validation_report",
        "s3://mscapetest-published-reports/" ++ p.cid.getD "" ++ "_validation_report.html")] ∧
    s3uri "mscapetest-published-reports" (p.cid.getD "" ++ "_scylla_report.html") ≠
      "s3://mscapetest-published-reports/" ++ p.cid.getD "" ++ "_validation_report.html" := by
  refine ⟨rfl, rfl, ?_⟩
  intro h
  have hlen := congrArg String.length h
  simp only [s3uri, String.length_append] at hlen
  have e1 : ("s3://" : String).length = 5 := rfl
  have e2 : ("mscapetest-published-reports" : String).length = 28 := rfl
  have e3 : ("/" : String).length = 1 := rfl
  have e4 : ("_scylla_report.html" : String).length = 19 := rfl
  have e5 : ("s3://mscapetest-published-reports/" : String).length = 34 := rfl
  have e6 : ("_validation_report.html" : String).length = 23 := rfl
  rw [e1, e2, e3, e4, e5, e6] at hlen
  omega
